import Mathlib

/-!
Verification of the reply-channel shim (`src/reply.cpp`) of go-unityscopes.

The shim exposes the native SearchReply / PreviewReply channels of the
scopes library to a foreign (Go) caller through C-callable functions.
Strings cross the boundary as GoString values, i.e. (pointer, length)
pairs; failures of the four push operations are caught and written to a
`char **error` out-parameter with `strdup(e.what())`.

The native channel itself (SearchReply / PreviewReply) is an external
collaborator that is not part of this repository; it is modelled from the
specification of the result-delivery protocol (states Open / Finished /
Errored, both terminal states absorbing, pushes append events observed by
the consumer).  The shim functions themselves are embedded directly from
`src/reply.cpp`.

Strings are modelled as lists of byte values (`Bytes`), so that payloads
with embedded null bytes are first-class.
-/

namespace UScopes

/-- Byte strings: the payloads crossing the boundary, as lists of bytes. -/
abbrev Bytes := List Nat

/-- Helper turning an ASCII Lean string literal into its byte list. -/
def strBytes (s : String) : Bytes := s.data.map Char.toNat

/-- A GoString as seen by the C side: a (pointer, length) pair.  Its
observable content is the exact sequence of `n` bytes at the pointer,
which may contain embedded null bytes. -/
structure GoString where
  p : Bytes
deriving DecidableEq

/-- Embedding of `from_gostring` (reply.cpp lines 15-18):
`std::string(s->p, s->n)` copies exactly `n` bytes, embedded nulls
included, so the result is the full byte payload. -/
def from_gostring (s : GoString) : Bytes := s.p

/-- Embedding of the outgoing error transfer `*error = strdup(e.what())`
(reply.cpp lines 56, 71, 103, 112): `strdup` copies a null-terminated C
string, so the caller observes only the bytes strictly before the first
null byte of the diagnostic. -/
def strdup_out (msg : Bytes) : Bytes := msg.takeWhile (fun b => b != 0)

/-- Modelled from the spec (section 4.3): the self-describing variant value
model used for filters and attributes (JSON-like trees: null, bool, int,
string, array, dict).  The concrete `unity::scopes::Variant` class lives
in the external scopes library, not in this repository. -/
inductive Variant where
  | vnull : Variant
  | vbool : Bool → Variant
  | vint : Int → Variant
  | vstr : Bytes → Variant
  | varr : List Variant → Variant
  | vdict : List (Bytes × Variant) → Variant

/- Modelled from the spec (section 4.3): recursive decoding of a
serialized variant tree, on a canonical prefix wire syntax standing in for
JSON text (the real JSON grammar lives in the external library).  Decoding
is fallible: malformed input yields a DeserializationError message, never
a silent default.  `fuel` bounds the recursion by the input length. -/
mutual

/-- Modelled from the spec (section 4.3): decoding of one variant value. -/
def parseVar : Nat → Bytes → Except Bytes (Variant × Bytes)
  | 0, _ => .error (strBytes "deserialization ran out of input")
  | _ + 1, 0 :: rest => .ok (.vnull, rest)
  | _ + 1, 1 :: b :: rest => .ok (.vbool (b != 0), rest)
  | _ + 1, 2 :: n :: rest =>
      .ok (.vint (Int.ofNat n), rest)
  | _ + 1, 3 :: n :: rest =>
      if n ≤ rest.length then .ok (.vstr (rest.take n), rest.drop n)
      else .error (strBytes "string payload truncated")
  | fuel + 1, 4 :: n :: rest => do
      let (xs, rem) ← parseArr fuel n rest
      .ok (.varr xs, rem)
  | fuel + 1, 5 :: n :: rest => do
      let (kvs, rem) ← parseDict fuel n rest
      .ok (.vdict kvs, rem)
  | _ + 1, _ => .error (strBytes "malformed variant encoding")

/-- Modelled from the spec (section 4.3): decoding of `n` consecutive
array elements. -/
def parseArr : Nat → Nat → Bytes → Except Bytes (List Variant × Bytes)
  | 0, _, _ => .error (strBytes "deserialization ran out of input")
  | _ + 1, 0, bs => .ok ([], bs)
  | fuel + 1, n + 1, bs => do
      let (v, rest) ← parseVar fuel bs
      let (vs, rem) ← parseArr fuel n rest
      .ok (v :: vs, rem)

/-- Modelled from the spec (section 4.3): decoding of `n` consecutive
(key, value) dictionary entries, keys length-prefixed. -/
def parseDict : Nat → Nat → Bytes → Except Bytes (List (Bytes × Variant) × Bytes)
  | 0, _, _ => .error (strBytes "deserialization ran out of input")
  | _ + 1, 0, bs => .ok ([], bs)
  | fuel + 1, n + 1, k :: bs =>
      if k ≤ bs.length then do
        let (v, rest) ← parseVar fuel (bs.drop k)
        let (kvs, rem) ← parseDict fuel n rest
        .ok ((bs.take k, v) :: kvs, rem)
      else .error (strBytes "dictionary key truncated")
  | _ + 1, _ + 1, [] => .error (strBytes "deserialization ran out of input")

end

/-- Modelled from the spec (section 4.3): `Variant::deserialize_json`.
Succeeds only when the whole blob is one well-formed variant tree. -/
def Variant.deserialize_json (bs : Bytes) : Except Bytes Variant :=
  match parseVar (bs.length + 1) bs with
  | .error e => .error e
  | .ok (v, []) => .ok v
  | .ok (_, _ :: _) => .error (strBytes "trailing bytes after variant")

/-- Modelled from the spec: `Variant::get_array` fails unless the variant
holds an array. -/
def Variant.get_array : Variant → Except Bytes (List Variant)
  | .varr xs => .ok xs
  | _ => .error (strBytes "variant does not contain an array")

/-- Modelled from the spec: `Variant::get_dict` fails unless the variant
holds a dictionary. -/
def Variant.get_dict : Variant → Except Bytes (List (Bytes × Variant))
  | .vdict kvs => .ok kvs
  | _ => .error (strBytes "variant does not contain a dict")

/-- Modelled from the spec (section 3): a Filter is a declarative
definition carried as a variant dict, identified by its id. -/
structure Filter where
  id : Bytes
  props : List (Bytes × Variant)

/-- Modelled from the spec: `FilterBase::deserialize` rebuilds a filter
from its variant dict; it fails on a dict that lacks a string id. -/
def FilterBase.deserialize (d : List (Bytes × Variant)) : Except Bytes Filter :=
  match d.lookup (strBytes "id") with
  | some (Variant.vstr i) => .ok ⟨i, d⟩
  | _ => .error (strBytes "filter definition lacks a string id")

/-- Modelled from the spec (section 3): a FilterState is a mapping from
filter id to selected value.  The wire format does not constrain the keys. -/
structure FilterState where
  entries : List (Bytes × Variant)

/-- Modelled from the spec: `FilterState::deserialize` accepts any variant
dict; no validation of the keys is performed. -/
def FilterState.deserialize (d : List (Bytes × Variant)) : Except Bytes FilterState :=
  .ok ⟨d⟩

/-- Modelled from the spec (section 4.4): a category renderer is either
the system default template (empty template string supplied) or a custom
one built from the supplied template text. -/
inductive CategoryRenderer where
  | default : CategoryRenderer
  | custom : Bytes → CategoryRenderer
deriving DecidableEq

/-- Modelled from the spec (section 3): a registered display category. -/
structure Category where
  id : Bytes
  title : Bytes
  icon : Bytes
  renderer : CategoryRenderer
deriving DecidableEq

/-- Modelled from the spec (section 3): channel lifecycle states. -/
inductive ChannelState where
  | Open : ChannelState
  | Finished : ChannelState
  | Errored : ChannelState
deriving DecidableEq

/-- Modelled from the spec (sections 2, 4): everything the consumer can
observe coming out of a channel. -/
inductive Event where
  | result : Nat → Event
  | filters : List Filter → FilterState → Event
  | widgets : List Bytes → Event
  | attr : Bytes → Variant → Event
  | category : Bytes → Bytes → Bytes → CategoryRenderer → Event
  | departments : Nat → Event
  | finishedSig : Event
  | errorSig : Bytes → Event

/-- Modelled from the spec (section 7): the error taxonomy of the native
channel, raised as C++ exceptions by the library. -/
inductive ChanError where
  | closedChannel : ChanError
  | duplicateCategory : Bytes → ChanError
  | logicError : Bytes → ChanError
deriving DecidableEq

/-- Modelled from the spec: the diagnostic bytes carried by the native
exception, as returned by `e.what()`. -/
def ChanError.what : ChanError → Bytes
  | .closedChannel => strBytes "ClosedChannelError: channel already terminated"
  | .duplicateCategory i => strBytes "DuplicateCategoryError: " ++ i
  | .logicError m => m

/-- Modelled from the spec (sections 3, 4.1): a reply channel: lifecycle
state, the category ids registered so far, whether a department tree has
been registered, and the event trace the consumer has observed. -/
structure Channel where
  state : ChannelState
  cats : List Bytes
  hasDepartments : Bool
  trace : List Event

namespace Channel

/-- Modelled from the spec (section 4.1): `push(result)` is valid only
while Open; after termination it fails with ClosedChannelError and the
consumer observes nothing. -/
def pushResult (c : Channel) (r : Nat) : Except ChanError Channel :=
  match c.state with
  | .Open => .ok { c with trace := c.trace ++ [Event.result r] }
  | _ => .error .closedChannel

/-- Modelled from the spec (section 4.1): `push(filters, filter_state)`
transmits both in one atomic push, only while Open. -/
def pushFilters (c : Channel) (fs : List Filter) (st : FilterState) :
    Except ChanError Channel :=
  match c.state with
  | .Open => .ok { c with trace := c.trace ++ [Event.filters fs st] }
  | _ => .error .closedChannel

/-- Modelled from the spec (section 4.2): `push(widgets)` appends the
widget list in the given order, only while Open. -/
def pushWidgets (c : Channel) (ws : List Bytes) : Except ChanError Channel :=
  match c.state with
  | .Open => .ok { c with trace := c.trace ++ [Event.widgets ws] }
  | _ => .error .closedChannel

/-- Modelled from the spec (section 4.2): `push(key, value)` transmits one
preview attribute, only while Open. -/
def pushAttr (c : Channel) (k : Bytes) (v : Variant) : Except ChanError Channel :=
  match c.state with
  | .Open => .ok { c with trace := c.trace ++ [Event.attr k v] }
  | _ => .error .closedChannel

/-- Modelled from the spec (section 4.1): `finished()` transitions
Open → Finished and closes the stream; calling it on a terminated channel
is a caller error that fails loudly. -/
def finished (c : Channel) : Except ChanError Channel :=
  match c.state with
  | .Open => .ok { c with state := .Finished, trace := c.trace ++ [Event.finishedSig] }
  | _ => .error .closedChannel

/-- Modelled from the spec (section 4.1): `error(message)` transitions
Open → Errored, carrying the diagnostic to the consumer; on a terminated
channel it fails loudly. -/
def error (c : Channel) (msg : Bytes) : Except ChanError Channel :=
  match c.state with
  | .Open => .ok { c with state := .Errored, trace := c.trace ++ [Event.errorSig msg] }
  | _ => .error .closedChannel

/-- Modelled from the spec (sections 4.1, 4.4): `register_category`
registers a category before termination; a duplicate id is rejected with
DuplicateCategoryError; the returned handle carries the renderer. -/
def register_category (c : Channel) (id title icon : Bytes)
    (renderer : CategoryRenderer) : Except ChanError (Channel × Category) :=
  match c.state with
  | .Open =>
      if c.cats.contains id then .error (.duplicateCategory id)
      else .ok ({ c with cats := c.cats ++ [id],
                         trace := c.trace ++ [Event.category id title icon renderer] },
                ⟨id, title, icon, renderer⟩)
  | _ => .error .closedChannel

/-- Modelled from the spec (section 4.1): `register_departments` registers
the full department tree at most once per channel. -/
def register_departments (c : Channel) (d : Nat) : Except ChanError Channel :=
  match c.state with
  | .Open =>
      if c.hasDepartments then .error (.logicError (strBytes "departments already registered"))
      else .ok { c with hasDepartments := true, trace := c.trace ++ [Event.departments d] }
  | _ => .error .closedChannel

end Channel

/-! ## The shim functions, embedded from `src/reply.cpp`.

A shim function with no try/catch is embedded with return type
`Except ChanError _`: an `.error` result models the native C++ exception
propagating out of the `extern "C"` function into the foreign caller.
A shim function with a try/catch and a `char **error` out-parameter is
embedded as a total function taking the bytes the out-parameter points to
(`err_out`) and returning the updated channel together with the bytes the
caller observes there afterwards. -/

/-- Embedding of `search_reply_finished` (reply.cpp lines 29-31): forwards
to the native `finished()` with no try/catch and no error out-parameter. -/
def search_reply_finished (reply : Channel) : Except ChanError Channel :=
  Channel.finished reply

/-- Embedding of `search_reply_error` (reply.cpp lines 33-36): wraps the
exact bytes of the incoming GoString in a `std::runtime_error` and hands
it to the native `error()`; no try/catch. -/
def search_reply_error (reply : Channel) (err_string : GoString) :
    Except ChanError Channel :=
  Channel.error reply (from_gostring err_string)

/-- Embedding of `search_reply_register_category` (reply.cpp lines 38-46):
a default-constructed renderer is replaced by one built from the template
text exactly when that text is non-empty; no try/catch. -/
def search_reply_register_category (reply : Channel)
    (id title icon cat_template : GoString) :
    Except ChanError (Channel × Category) :=
  let renderer_template := from_gostring cat_template
  let renderer := if renderer_template = [] then CategoryRenderer.default
                  else CategoryRenderer.custom renderer_template
  Channel.register_category reply (from_gostring id) (from_gostring title)
    (from_gostring icon) renderer

/-- Embedding of `search_reply_register_departments` (reply.cpp lines
48-50): forwards to the native call with no try/catch. -/
def search_reply_register_departments (reply : Channel) (dept : Nat) :
    Except ChanError Channel :=
  Channel.register_departments reply dept

/-- Embedding of `search_reply_push` (reply.cpp lines 52-58): the native
push runs inside try/catch; on failure `*error = strdup(e.what())`, on
success the out-parameter is untouched. -/
def search_reply_push (reply : Channel) (result : Nat) (err_out : Bytes) :
    Channel × Bytes :=
  match Channel.pushResult reply result with
  | .ok c2 => (c2, err_out)
  | .error e => (reply, strdup_out (ChanError.what e))

/-- Embedding of the decode steps of `search_reply_push_filters`
(reply.cpp lines 62-68), in source order: decode the filters blob, decode
the state blob, rebuild each filter from its dict, rebuild the state. -/
def decode_filters_blobs (fb sb : Bytes) : Except Bytes (List Filter × FilterState) := do
  let filters_var ← Variant.deserialize_json fb
  let filter_state_var ← Variant.deserialize_json sb
  let arr ← Variant.get_array filters_var
  let filters ← arr.mapM (fun f => do FilterBase.deserialize (← Variant.get_dict f))
  let filter_state ← do FilterState.deserialize (← Variant.get_dict filter_state_var)
  .ok (filters, filter_state)

/-- Embedding of the body of `search_reply_push_filters` (reply.cpp lines
61-69), the code inside the try block: the decode steps above followed by
the one push of both decoded values. -/
def run_push_filters (reply : Channel) (filters_json filter_state_json : GoString) :
    Except Bytes Channel := do
  let (filters, filter_state) ←
    decode_filters_blobs (from_gostring filters_json) (from_gostring filter_state_json)
  (Channel.pushFilters reply filters filter_state).mapError ChanError.what

/-- Embedding of `search_reply_push_filters` (reply.cpp lines 60-73): the
try block above, with the catch writing `strdup(e.what())` to the error
out-parameter and the channel left as it was. -/
def search_reply_push_filters (reply : Channel)
    (filters_json filter_state_json : GoString) (err_out : Bytes) :
    Channel × Bytes :=
  match run_push_filters reply filters_json filter_state_json with
  | .ok c2 => (c2, err_out)
  | .error e => (reply, strdup_out e)

/-- Embedding of `preview_reply_finished` (reply.cpp lines 84-86). -/
def preview_reply_finished (reply : Channel) : Except ChanError Channel :=
  Channel.finished reply

/-- Embedding of `preview_reply_error` (reply.cpp lines 88-91). -/
def preview_reply_error (reply : Channel) (err_string : GoString) :
    Except ChanError Channel :=
  Channel.error reply (from_gostring err_string)

/-- Embedding of the widget-collection loop of `preview_reply_push_widgets`
(reply.cpp lines 95-100): for `i` from 0 to `count - 1`, a PreviewWidget
is built from the byte payload `(widget_data[i].p, widget_data[i].n)` and
appended.  PreviewWidget descriptors are opaque serialized strings (spec
section 3), so a widget is its byte payload. -/
def read_widgets (arr : List GoString) (count : Nat) : List Bytes :=
  (List.range count).map (fun i => from_gostring (arr.getD i ⟨[]⟩))

/-- Embedding of `preview_reply_push_widgets` (reply.cpp lines 93-105):
builds the widget list in index order and pushes it inside try/catch. -/
def preview_reply_push_widgets (reply : Channel) (gostring_array : List GoString)
    (count : Nat) (err_out : Bytes) : Channel × Bytes :=
  let widgets := read_widgets gostring_array count
  match Channel.pushWidgets reply widgets with
  | .ok c2 => (c2, err_out)
  | .error e => (reply, strdup_out (ChanError.what e))

/-- Embedding of the body of `preview_reply_push_attr` (reply.cpp lines
109-110), the code inside the try block. -/
def run_push_attr (reply : Channel) (key json_value : GoString) :
    Except Bytes Channel := do
  let value ← Variant.deserialize_json (from_gostring json_value)
  (Channel.pushAttr reply (from_gostring key) value).mapError ChanError.what

/-- Embedding of `preview_reply_push_attr` (reply.cpp lines 107-114). -/
def preview_reply_push_attr (reply : Channel) (key json_value : GoString)
    (err_out : Bytes) : Channel × Bytes :=
  match run_push_attr reply key json_value with
  | .ok c2 => (c2, err_out)
  | .error e => (reply, strdup_out e)

/-! ## Concrete channels used by the witnesses -/

/-- A fresh open channel with nothing observed yet. -/
def chan0 : Channel :=
  { state := ChannelState.Open, cats := [], hasDepartments := false, trace := [] }

/-- The channel obtained from `chan0` by a successful `finished()`. -/
def chanFin : Channel :=
  { state := ChannelState.Finished, cats := [], hasDepartments := false,
    trace := [Event.finishedSig] }

/-! ## Helper lemmas about the channel state machine -/

lemma pushResult_closed (c : Channel) (h : c.state ≠ ChannelState.Open) (r : Nat) :
    Channel.pushResult c r = Except.error ChanError.closedChannel := by
  cases hs : c.state with
  | Open => exact absurd hs h
  | Finished => unfold Channel.pushResult; rw [hs]
  | Errored => unfold Channel.pushResult; rw [hs]

lemma pushFilters_closed (c : Channel) (h : c.state ≠ ChannelState.Open)
    (fs : List Filter) (st : FilterState) :
    Channel.pushFilters c fs st = Except.error ChanError.closedChannel := by
  cases hs : c.state with
  | Open => exact absurd hs h
  | Finished => unfold Channel.pushFilters; rw [hs]
  | Errored => unfold Channel.pushFilters; rw [hs]

lemma pushWidgets_closed (c : Channel) (h : c.state ≠ ChannelState.Open) (ws : List Bytes) :
    Channel.pushWidgets c ws = Except.error ChanError.closedChannel := by
  cases hs : c.state with
  | Open => exact absurd hs h
  | Finished => unfold Channel.pushWidgets; rw [hs]
  | Errored => unfold Channel.pushWidgets; rw [hs]

lemma pushAttr_closed (c : Channel) (h : c.state ≠ ChannelState.Open) (k : Bytes) (v : Variant) :
    Channel.pushAttr c k v = Except.error ChanError.closedChannel := by
  cases hs : c.state with
  | Open => exact absurd hs h
  | Finished => unfold Channel.pushAttr; rw [hs]
  | Errored => unfold Channel.pushAttr; rw [hs]

lemma finished_state {c0 c : Channel} (h : Channel.finished c0 = Except.ok c) :
    c.state = ChannelState.Finished := by
  unfold Channel.finished at h
  cases hs : c0.state with
  | Open => rw [hs] at h; injection h with h2; rw [← h2]
  | Finished => rw [hs] at h; exact Except.noConfusion h
  | Errored => rw [hs] at h; exact Except.noConfusion h

lemma error_state {c0 c : Channel} {m : Bytes} (h : Channel.error c0 m = Except.ok c) :
    c.state = ChannelState.Errored := by
  unfold Channel.error at h
  cases hs : c0.state with
  | Open => rw [hs] at h; injection h with h2; rw [← h2]
  | Finished => rw [hs] at h; exact Except.noConfusion h
  | Errored => rw [hs] at h; exact Except.noConfusion h

/-! ## Helper lemmas about the widget-collection loop -/

lemma read_widgets_length (arr : List GoString) (count : Nat) :
    (read_widgets arr count).length = count := by
  simp [read_widgets]

lemma read_widgets_getD (arr : List GoString) (count i : Nat) (h : i < count) :
    (read_widgets arr count).getD i [] = (arr.getD i ⟨[]⟩).p := by
  have hlen : i < (read_widgets arr count).length := by
    rw [read_widgets_length]; exact h
  rw [List.getD_eq_getElem _ _ hlen]
  simp [read_widgets, from_gostring]

lemma read_widgets_full (arr : List GoString) :
    read_widgets arr arr.length = arr.map GoString.p := by
  apply List.ext_getElem
  · simp [read_widgets]
  · intro i h1 h2
    have hi : i < arr.length := by simpa [read_widgets] using h1
    simp [read_widgets, from_gostring, List.getD_eq_getElem _ _ hi,
      List.getElem?_eq_getElem hi]

/-! ## Claims -/

/-- C3: for every channel, after `finished()` or `error()` has succeeded,
the terminal state is absorbing: every subsequent push — result, filters,
widgets or attribute — fails with ClosedChannelError, and at the shim
level the channel comes back unchanged (no observable transmission), the
diagnostic going to the caller through the error out-parameter. -/
theorem terminal_states_absorbing (c0 c : Channel)
    (h : Channel.finished c0 = Except.ok c ∨ ∃ m, Channel.error c0 m = Except.ok c) :
    (∀ r, Channel.pushResult c r = Except.error ChanError.closedChannel) ∧
    (∀ fs st, Channel.pushFilters c fs st = Except.error ChanError.closedChannel) ∧
    (∀ ws, Channel.pushWidgets c ws = Except.error ChanError.closedChannel) ∧
    (∀ k v, Channel.pushAttr c k v = Except.error ChanError.closedChannel) ∧
    (∀ r e, search_reply_push c r e =
      (c, strdup_out (ChanError.what ChanError.closedChannel))) := by
  have hno : c.state ≠ ChannelState.Open := by
    rcases h with h | ⟨m, h⟩
    · rw [finished_state h]; intro hc; exact ChannelState.noConfusion hc
    · rw [error_state h]; intro hc; exact ChannelState.noConfusion hc
  refine ⟨fun r => pushResult_closed c hno r,
         fun fs st => pushFilters_closed c hno fs st,
         fun ws => pushWidgets_closed c hno ws,
         fun k v => pushAttr_closed c hno k v,
         fun r e => ?_⟩
  unfold search_reply_push
  rw [pushResult_closed c hno r]

/-- Witness for C3: a concretely finished channel rejects a concrete push. -/
theorem terminal_states_absorbing_witness :
    (Channel.finished chan0 = Except.ok chanFin ∨
      ∃ m, Channel.error chan0 m = Except.ok chanFin) ∧
    Channel.pushResult chanFin 7 = Except.error ChanError.closedChannel :=
  ⟨Or.inl rfl, (terminal_states_absorbing chan0 chanFin (Or.inl rfl)).1 7⟩

/-- C5: registering a category with an empty renderer-template string uses
the system default renderer, a non-empty one builds the renderer from
exactly that template text, and in both cases a Category handle carrying
the supplied id, title and icon is produced. -/
theorem register_category_renderer (c : Channel) (id title icon cat_template : GoString)
    (hopen : c.state = ChannelState.Open)
    (hfresh : c.cats.contains (from_gostring id) = false) :
    ∃ c2 cat, search_reply_register_category c id title icon cat_template =
        Except.ok (c2, cat) ∧
      cat.id = from_gostring id ∧ cat.title = from_gostring title ∧
      cat.icon = from_gostring icon ∧
      cat.renderer = (if from_gostring cat_template = [] then CategoryRenderer.default
                      else CategoryRenderer.custom (from_gostring cat_template)) := by
  unfold search_reply_register_category Channel.register_category
  rw [hopen]
  simp only [hfresh, Bool.false_eq_true, if_false]
  exact ⟨_, _, rfl, rfl, rfl, rfl, rfl⟩

/-- Witness for C5: on a fresh channel, an empty template yields the
default renderer and a non-empty template yields a custom renderer built
from exactly that text. -/
theorem register_category_renderer_witness :
    chan0.cats.contains (from_gostring ⟨strBytes "sports"⟩) = false ∧
    (∃ c2 cat, search_reply_register_category chan0 ⟨strBytes "sports"⟩
        ⟨strBytes "Sports"⟩ ⟨[]⟩ ⟨[]⟩ = Except.ok (c2, cat) ∧
      cat.renderer = CategoryRenderer.default) ∧
    (∃ c2 cat, search_reply_register_category chan0 ⟨strBytes "news"⟩
        ⟨strBytes "News"⟩ ⟨[]⟩ ⟨strBytes "grid"⟩ = Except.ok (c2, cat) ∧
      cat.renderer = CategoryRenderer.custom (strBytes "grid")) := by
  refine ⟨rfl, ?_, ?_⟩
  · obtain ⟨c2, cat, h1, _, _, _, h5⟩ := register_category_renderer chan0 ⟨strBytes "sports"⟩
      ⟨strBytes "Sports"⟩ ⟨[]⟩ ⟨[]⟩ rfl rfl
    exact ⟨c2, cat, h1, by rw [h5]; decide⟩
  · obtain ⟨c2, cat, h1, _, _, _, h5⟩ := register_category_renderer chan0 ⟨strBytes "news"⟩
      ⟨strBytes "News"⟩ ⟨[]⟩ ⟨strBytes "grid"⟩ rfl rfl
    exact ⟨c2, cat, h1, by rw [h5]; decide⟩

/-- C7: the diagnostic delivered to the channel error event carries
exactly the bytes of the message handed to the shim error function, for
both the search and the preview variants. -/
theorem error_message_exact (c cp : Channel) (msg : Bytes)
    (h : c.state = ChannelState.Open) (hp : cp.state = ChannelState.Open) :
    search_reply_error c ⟨msg⟩ =
      Except.ok { c with state := ChannelState.Errored,
                         trace := c.trace ++ [Event.errorSig msg] } ∧
    preview_reply_error cp ⟨msg⟩ =
      Except.ok { cp with state := ChannelState.Errored,
                          trace := cp.trace ++ [Event.errorSig msg] } := by
  constructor
  · unfold search_reply_error Channel.error
    rw [h]
    rfl
  · unfold preview_reply_error Channel.error
    rw [hp]
    rfl

/-- Witness for C7: the message "backend timeout" arrives byte-for-byte. -/
theorem error_message_exact_witness :
    search_reply_error chan0 ⟨strBytes "backend timeout"⟩ =
      Except.ok { chan0 with state := ChannelState.Errored,
                             trace := [Event.errorSig (strBytes "backend timeout")] } ∧
    preview_reply_error chan0 ⟨strBytes "backend timeout"⟩ =
      Except.ok { chan0 with state := ChannelState.Errored,
                             trace := [Event.errorSig (strBytes "backend timeout")] } :=
  error_message_exact chan0 chan0 (strBytes "backend timeout") rfl rfl

/-- C6: pushing the widget-descriptor array of length n hands the channel
exactly the n descriptors in index order (index 0 first, index n-1 last),
and a following finished() makes the consumer observe the widgets event
and then the finished signal. -/
theorem widgets_order (c : Channel) (arr : List GoString) (err_out : Bytes)
    (hopen : c.state = ChannelState.Open) :
    ∃ c2, preview_reply_push_widgets c arr arr.length err_out = (c2, err_out) ∧
      c2.trace = c.trace ++ [Event.widgets (arr.map GoString.p)] ∧
      ∃ c3, Channel.finished c2 = Except.ok c3 ∧
        c3.trace = c.trace ++ [Event.widgets (arr.map GoString.p), Event.finishedSig] := by
  unfold preview_reply_push_widgets
  rw [read_widgets_full]
  unfold Channel.pushWidgets
  rw [hopen]
  refine ⟨_, rfl, rfl, ?_⟩
  unfold Channel.finished
  exact ⟨_, rfl, by simp⟩

/-- Witness for C6: widgets W1, W2, W3 arrive in exactly that order,
followed by the finished signal. -/
theorem widgets_order_witness :
    ∃ c2, preview_reply_push_widgets chan0
        [⟨strBytes "W1"⟩, ⟨strBytes "W2"⟩, ⟨strBytes "W3"⟩] 3 [] = (c2, []) ∧
      c2.trace = [Event.widgets [strBytes "W1", strBytes "W2", strBytes "W3"]] ∧
      ∃ c3, Channel.finished c2 = Except.ok c3 ∧
        c3.trace = [Event.widgets [strBytes "W1", strBytes "W2", strBytes "W3"],
                    Event.finishedSig] := by
  obtain ⟨c2, h1, h2, c3, h3, h4⟩ := widgets_order chan0
    [⟨strBytes "W1"⟩, ⟨strBytes "W2"⟩, ⟨strBytes "W3"⟩] [] rfl
  exact ⟨c2, h1, by simpa using h2, c3, h3, by simpa using h4⟩

/-- C10: a widget push with count zero still pushes the empty widget list
to the channel (it is not skipped), and for every count within the input
array exactly count widgets are read, the i-th built from the byte
payload of the (pointer, length) pair at index i. -/
theorem widgets_count (c : Channel) (arr : List GoString) (count : Nat) (err_out : Bytes)
    (hopen : c.state = ChannelState.Open) (hcount : count ≤ arr.length) :
    (∃ c2, preview_reply_push_widgets c arr 0 err_out = (c2, err_out) ∧
      c2.trace = c.trace ++ [Event.widgets []]) ∧
    (read_widgets arr count).length = count ∧
    (∀ i, i < count → (read_widgets arr count).getD i [] = (arr.getD i ⟨[]⟩).p) := by
  refine ⟨?_, read_widgets_length arr count, fun i hi => read_widgets_getD arr count i hi⟩
  unfold preview_reply_push_widgets
  unfold Channel.pushWidgets
  rw [hopen]
  exact ⟨_, rfl, rfl⟩

/-- Witness for C10: count zero pushes the empty list; with count 2 both
payloads are read in place. -/
theorem widgets_count_witness :
    (∃ c2, preview_reply_push_widgets chan0 [⟨[1, 2]⟩, ⟨[3]⟩] 0 [] = (c2, []) ∧
      c2.trace = [Event.widgets []]) ∧
    (read_widgets [⟨[1, 2]⟩, ⟨[3]⟩] 2).length = 2 ∧
    (read_widgets [⟨[1, 2]⟩, ⟨[3]⟩] 2).getD 1 [] = [3] := by
  obtain ⟨⟨c2, h1, h2⟩, h3, h4⟩ := widgets_count chan0 [⟨[1, 2]⟩, ⟨[3]⟩] 2 [] rfl
    (by decide)
  exact ⟨⟨c2, h1, by simpa using h2⟩, h3, by simpa using h4 1 (by decide)⟩

/-- Concrete filter blob: the wire encoding of the one-element filter
array whose single filter dict maps key "id" to the string "a". -/
def fbGood : Bytes := [4, 1, 5, 1, 2, 105, 100, 3, 1, 97]

/-- Concrete state blob: the wire encoding of the filter-state dict whose
single key is "b" with a null value (its key matches no filter id). -/
def sbGood : Bytes := [5, 1, 1, 98, 0]

/-- The filter decoded from `fbGood`. -/
def filterA : Filter := ⟨[97], [([105, 100], Variant.vstr [97])]⟩

/-- The filter state decoded from `sbGood`. -/
def stateB : FilterState := ⟨[([98], Variant.vnull)]⟩

/-- C4: the filter push decodes both JSON blobs and pushes the decoded
pair in one atomic operation: if any decode step fails, the error string
goes to the caller and the channel is returned untouched (nothing pushed);
if both decode, the single push of both values happens. -/
theorem push_filters_atomic (c : Channel) (f s : GoString) (err_out : Bytes) :
    (∀ e, decode_filters_blobs (from_gostring f) (from_gostring s) = Except.error e →
      search_reply_push_filters c f s err_out = (c, strdup_out e)) ∧
    (∀ fs st, decode_filters_blobs (from_gostring f) (from_gostring s) = Except.ok (fs, st) →
      c.state = ChannelState.Open →
      search_reply_push_filters c f s err_out =
        ({ c with trace := c.trace ++ [Event.filters fs st] }, err_out)) := by
  constructor
  · intro e he
    unfold search_reply_push_filters run_push_filters
    rw [he]
    rfl
  · intro fs st hd hopen
    unfold search_reply_push_filters run_push_filters
    rw [hd]
    show (match (Channel.pushFilters c fs st).mapError ChanError.what with
          | Except.ok c2 => (c2, err_out)
          | Except.error e => (c, strdup_out e)) = _
    unfold Channel.pushFilters
    rw [hopen]
    rfl

/-- Witness for C4: a malformed blob leaves the channel untouched with
the diagnostic returned; the well-formed pair is pushed in one event. -/
theorem push_filters_atomic_witness :
    search_reply_push_filters chanFin ⟨[]⟩ ⟨[]⟩ [] =
      (chanFin, strdup_out (strBytes "malformed variant encoding")) ∧
    search_reply_push_filters chan0 ⟨fbGood⟩ ⟨sbGood⟩ [] =
      ({ chan0 with trace := [Event.filters [filterA] stateB] }, []) :=
  ⟨(push_filters_atomic chanFin ⟨[]⟩ ⟨[]⟩ []).1 (strBytes "malformed variant encoding") rfl,
   (push_filters_atomic chan0 ⟨fbGood⟩ ⟨sbGood⟩ []).2 [filterA] stateB rfl rfl⟩

/-- C8: the filter push validates no correspondence between the keys of
the filter-state dict and the ids of the decoded filters: every
well-formed pair of blobs is forwarded unchanged to the channel,
whether or not the ids correspond. -/
theorem push_filters_no_id_check (c : Channel) (f s : GoString) (err_out : Bytes)
    (fs : List Filter) (st : FilterState)
    (hdec : decode_filters_blobs (from_gostring f) (from_gostring s) = Except.ok (fs, st))
    (hopen : c.state = ChannelState.Open) :
    (search_reply_push_filters c f s err_out).1.trace = c.trace ++ [Event.filters fs st] ∧
    (search_reply_push_filters c f s err_out).2 = err_out := by
  have h : search_reply_push_filters c f s err_out =
      ({ c with trace := c.trace ++ [Event.filters fs st] }, err_out) := by
    unfold search_reply_push_filters run_push_filters
    rw [hdec]
    show (match (Channel.pushFilters c fs st).mapError ChanError.what with
          | Except.ok c2 => (c2, err_out)
          | Except.error e => (c, strdup_out e)) = _
    unfold Channel.pushFilters
    rw [hopen]
    rfl
  rw [h]
  exact ⟨rfl, rfl⟩

/-- Witness for C8: the single filter id is "a" while the single state
key is "b" — no correspondence — and the pair is still pushed as is. -/
theorem push_filters_no_id_check_witness :
    decode_filters_blobs fbGood sbGood = Except.ok ([filterA], stateB) ∧
    filterA.id = [97] ∧ stateB.entries.map Prod.fst = [[98]] ∧
    (search_reply_push_filters chan0 ⟨fbGood⟩ ⟨sbGood⟩ []).1.trace =
      [Event.filters [filterA] stateB] :=
  ⟨rfl, rfl, rfl,
   (push_filters_no_id_check chan0 ⟨fbGood⟩ ⟨sbGood⟩ [] [filterA] stateB rfl rfl).1⟩

/-- C9: every operation carrying a char** error out-parameter writes it
only on the failure path: whenever the body of the try block succeeds,
the bytes the out-parameter points to come back to the caller unchanged. -/
theorem error_out_unchanged (c : Channel) (r : Nat) (f s k jv : GoString)
    (arr : List GoString) (count : Nat) (err_out : Bytes) :
    (∀ c2, Channel.pushResult c r = Except.ok c2 →
      search_reply_push c r err_out = (c2, err_out)) ∧
    (∀ c2, run_push_filters c f s = Except.ok c2 →
      search_reply_push_filters c f s err_out = (c2, err_out)) ∧
    (∀ c2, Channel.pushWidgets c (read_widgets arr count) = Except.ok c2 →
      preview_reply_push_widgets c arr count err_out = (c2, err_out)) ∧
    (∀ c2, run_push_attr c k jv = Except.ok c2 →
      preview_reply_push_attr c k jv err_out = (c2, err_out)) := by
  refine ⟨fun c2 h => ?_, fun c2 h => ?_, fun c2 h => ?_, fun c2 h => ?_⟩
  · unfold search_reply_push
    rw [h]
  · unfold search_reply_push_filters
    rw [h]
  · unfold preview_reply_push_widgets
    simp only [h]
  · unfold preview_reply_push_attr
    rw [h]

/-- Witness for C9: a successful result push and a successful attribute
push return the pre-initialized out-bytes [9, 9] untouched. -/
theorem error_out_unchanged_witness :
    Channel.pushResult chan0 1 = Except.ok { chan0 with trace := [Event.result 1] } ∧
    search_reply_push chan0 1 [9, 9] = ({ chan0 with trace := [Event.result 1] }, [9, 9]) ∧
    run_push_attr chan0 ⟨[107]⟩ ⟨[0]⟩ =
      Except.ok { chan0 with trace := [Event.attr [107] Variant.vnull] } ∧
    preview_reply_push_attr chan0 ⟨[107]⟩ ⟨[0]⟩ [9, 9] =
      ({ chan0 with trace := [Event.attr [107] Variant.vnull] }, [9, 9]) :=
  ⟨rfl,
   (error_out_unchanged chan0 1 ⟨[]⟩ ⟨[]⟩ ⟨[107]⟩ ⟨[0]⟩ [] 0 [9, 9]).1 _ rfl,
   rfl,
   (error_out_unchanged chan0 1 ⟨[]⟩ ⟨[]⟩ ⟨[107]⟩ ⟨[0]⟩ [] 0 [9, 9]).2.2.2 _ rfl⟩

/-- An open channel that already has the category id "sports" registered. -/
def chanSports : Channel :=
  { state := ChannelState.Open, cats := [strBytes "sports"], hasDepartments := false,
    trace := [Event.category (strBytes "sports") (strBytes "Sports") []
      CategoryRenderer.default] }

/-- Counterexample to C1: `search_reply_finished` and
`search_reply_register_category` have no try/catch and no error
out-parameter (reply.cpp lines 29-31 and 38-46), so a failure of the
underlying native call — here a second `finished()` on a terminated
channel and a duplicate category id — escapes the C-callable function as
a native exception (modelled by the `Except.error` result) instead of
being captured and returned as an error string. -/
theorem boundary_capture_cex :
    search_reply_finished chanFin = Except.error ChanError.closedChannel ∧
    search_reply_register_category chanSports ⟨strBytes "sports"⟩ ⟨strBytes "Sports"⟩
      ⟨[]⟩ ⟨[]⟩ = Except.error (ChanError.duplicateCategory (strBytes "sports")) :=
  ⟨rfl, rfl⟩

/-- C1 amended: only the four operations with an error out-parameter
(result push, filter push, widget push, attribute push) capture a failure
of the underlying native call and return its diagnostic as an error
string, leaving the channel unchanged; the four operations without an
out-parameter (finished, error, register_category, register_departments)
re-raise the native failure across the boundary. -/
theorem boundary_capture_amended (c : Channel) (r : Nat) (f s k jv : GoString)
    (arr : List GoString) (count : Nat) (err_out : Bytes) :
    (∀ e, Channel.pushResult c r = Except.error e →
      search_reply_push c r err_out = (c, strdup_out (ChanError.what e))) ∧
    (∀ e, run_push_filters c f s = Except.error e →
      search_reply_push_filters c f s err_out = (c, strdup_out e)) ∧
    (∀ e, Channel.pushWidgets c (read_widgets arr count) = Except.error e →
      preview_reply_push_widgets c arr count err_out = (c, strdup_out (ChanError.what e))) ∧
    (∀ e, run_push_attr c k jv = Except.error e →
      preview_reply_push_attr c k jv err_out = (c, strdup_out e)) ∧
    (∀ e, Channel.finished c = Except.error e →
      search_reply_finished c = Except.error e) ∧
    (∀ e m, Channel.error c m = Except.error e →
      search_reply_error c ⟨m⟩ = Except.error e) ∧
    (∀ e (id title icon tmpl : GoString),
      Channel.register_category c (from_gostring id) (from_gostring title)
          (from_gostring icon)
          (if from_gostring tmpl = [] then CategoryRenderer.default
           else CategoryRenderer.custom (from_gostring tmpl)) = Except.error e →
      search_reply_register_category c id title icon tmpl = Except.error e) ∧
    (∀ e d, Channel.register_departments c d = Except.error e →
      search_reply_register_departments c d = Except.error e) := by
  refine ⟨fun e h => ?_, fun e h => ?_, fun e h => ?_, fun e h => ?_,
         fun e h => ?_, fun e m h => ?_, fun e id title icon tmpl h => ?_,
         fun e d h => ?_⟩
  · unfold search_reply_push
    rw [h]
  · unfold search_reply_push_filters
    rw [h]
  · unfold preview_reply_push_widgets
    simp only [h]
  · unfold preview_reply_push_attr
    rw [h]
  · unfold search_reply_finished
    exact h
  · unfold search_reply_error
    exact h
  · unfold search_reply_register_category
    exact h
  · unfold search_reply_register_departments
    exact h

/-- Witness for C1 amended: on a terminated channel the result push
captures the failure into the out-parameter while finished, a duplicate
category registration and a department registration re-raise it. -/
theorem boundary_capture_amended_witness :
    Channel.pushResult chanFin 3 = Except.error ChanError.closedChannel ∧
    search_reply_push chanFin 3 [] =
      (chanFin, strdup_out (ChanError.what ChanError.closedChannel)) ∧
    Channel.finished chanFin = Except.error ChanError.closedChannel ∧
    search_reply_finished chanFin = Except.error ChanError.closedChannel ∧
    Channel.register_category chanSports (strBytes "sports") (strBytes "Sports") []
      CategoryRenderer.default =
      Except.error (ChanError.duplicateCategory (strBytes "sports")) ∧
    search_reply_register_category chanSports ⟨strBytes "sports"⟩ ⟨strBytes "Sports"⟩
      ⟨[]⟩ ⟨[]⟩ = Except.error (ChanError.duplicateCategory (strBytes "sports")) ∧
    Channel.register_departments chanFin 0 = Except.error ChanError.closedChannel ∧
    search_reply_register_departments chanFin 0 = Except.error ChanError.closedChannel :=
  ⟨rfl,
   (boundary_capture_amended chanFin 3 ⟨[]⟩ ⟨[]⟩ ⟨[]⟩ ⟨[]⟩ [] 0 []).1 _ rfl,
   rfl,
   (boundary_capture_amended chanFin 3 ⟨[]⟩ ⟨[]⟩ ⟨[]⟩ ⟨[]⟩ [] 0 []).2.2.2.2.1 _ rfl,
   rfl,
   (boundary_capture_amended chanSports 3 ⟨[]⟩ ⟨[]⟩ ⟨[]⟩ ⟨[]⟩ [] 0 []).2.2.2.2.2.2.1
     (ChanError.duplicateCategory (strBytes "sports"))
     ⟨strBytes "sports"⟩ ⟨strBytes "Sports"⟩ ⟨[]⟩ ⟨[]⟩ rfl,
   rfl,
   (boundary_capture_amended chanFin 3 ⟨[]⟩ ⟨[]⟩ ⟨[]⟩ ⟨[]⟩ [] 0 []).2.2.2.2.2.2.2 _ 0 rfl⟩

/-- Counterexample to C2: the outgoing error diagnostic does not cross
the boundary as a (pointer, length) pair: it crosses through
`*error = strdup(e.what())`, a null-terminated copy (embedded as
`strdup_out`, the outgoing transfer used by every failure path, as the
first conjunct shows on a concrete failing push), and a diagnostic with
an embedded null byte is truncated at that null. -/
theorem boundary_strings_cex :
    search_reply_push chanFin 0 [] =
      (chanFin, strdup_out (ChanError.what ChanError.closedChannel)) ∧
    strdup_out [101, 0, 102] ≠ [101, 0, 102] :=
  ⟨rfl, by decide⟩

/-- C2 amended: strings entering the shim cross as (pointer, length)
pairs and arrive without truncation even with embedded null bytes — shown
for the category title — while the outgoing error diagnostics cross as
null-terminated strdup copies, so no byte from the first embedded null
onward ever reaches the caller. -/
theorem boundary_strings_amended (c : Channel) (id title icon : Bytes)
    (hopen : c.state = ChannelState.Open) (hnull : 0 ∈ title)
    (hfresh : c.cats.contains id = false) :
    (∃ c2 cat, search_reply_register_category c ⟨id⟩ ⟨title⟩ ⟨icon⟩ ⟨[]⟩ =
        Except.ok (c2, cat) ∧ cat.title = title) ∧
    (∀ pre s1 s2 : Bytes, strdup_out (pre ++ 0 :: s1) = strdup_out (pre ++ 0 :: s2)) := by
  constructor
  · obtain ⟨c2, cat, h1, _, h3, _, _⟩ :=
      register_category_renderer c ⟨id⟩ ⟨title⟩ ⟨icon⟩ ⟨[]⟩ hopen hfresh
    exact ⟨c2, cat, h1, h3⟩
  · intro pre s1 s2
    induction pre with
    | nil => rfl
    | cons b pre ih =>
        simp only [strdup_out, List.cons_append, List.takeWhile_cons] at ih ⊢
        cases hb : (b != 0) <;> simp only [ih]

/-- Witness for C2 amended: the title bytes [84, 0, 86] with an embedded
null arrive intact, while on the outgoing side the bytes after a null are
irrecoverable. -/
theorem boundary_strings_amended_witness :
    (0 ∈ ([84, 0, 86] : Bytes)) ∧
    (∃ c2 cat, search_reply_register_category chan0 ⟨[99]⟩ ⟨[84, 0, 86]⟩ ⟨[]⟩ ⟨[]⟩ =
        Except.ok (c2, cat) ∧ cat.title = [84, 0, 86]) ∧
    strdup_out [7, 0, 1] = strdup_out [7, 0, 2] := by
  have h := boundary_strings_amended chan0 [99] [84, 0, 86] [] rfl (by decide) rfl
  exact ⟨by decide, h.1, h.2 [7] [1] [2]⟩

end UScopes
